import Mathlib

/-
Verification of the monitoring-application resilience core against its
natural-language specification.

The development shallowly embeds the two circuit-breaker implementations
found in the repository (src/lambda/resilient-api/lambda_function.py, and
the deployed asset handler under src/infrastructure/outputs.json), the
SLO calculator and error-budget alerter of the health-monitor asset, and
the write paths of both API handlers.  Python floats (timestamps, metric
values, percentages) are modelled as rationals; Python ints as Lean Int.
-/

set_option autoImplicit false
set_option maxRecDepth 8000

namespace Monitoring

/-- Circuit breaker status: the three values of the `state` field of the
module-level `circuit_breaker` dict in both handler variants. -/
inductive CBStatus where
  | CLOSED
  | OPEN
  | HALF_OPEN
deriving DecidableEq, Repr

namespace ResilientApi

/-- Breaker state of src/lambda/resilient-api/lambda_function.py:
`failure_count` (Python int), `last_failure_time` (float, initialised to 0),
`state`. -/
structure CBState where
  failure_count : Int
  last_failure_time : ℚ
  state : CBStatus
deriving DecidableEq, Repr

/-- FAILURE_THRESHOLD = 5 in the source. -/
def FAILURE_THRESHOLD : Int := 5

/-- TIMEOUT_DURATION = 60 seconds in the source. -/
def TIMEOUT_DURATION : ℚ := 60

/-- The module-level initial breaker: failure_count 0, last_failure_time 0,
state CLOSED. -/
def initial_breaker : CBState := ⟨0, 0, CBStatus.CLOSED⟩

/-- Embeds `record_circuit_breaker_failure` (lines 141-148): increment the
counter, stamp the failure time, and flip to OPEN once the counter reaches
the threshold.  `t` is the value of `time.time()` at the call. -/
def record_circuit_breaker_failure (t : ℚ) (cb : CBState) : CBState :=
  let fc := cb.failure_count + 1
  if FAILURE_THRESHOLD ≤ fc then ⟨fc, t, CBStatus.OPEN⟩
  else ⟨fc, t, cb.state⟩

/-- Embeds `record_circuit_breaker_success` (lines 150-157): in HALF_OPEN,
close the breaker and reset the counter; otherwise decay a positive counter
by one (clamped at 0). -/
def record_circuit_breaker_success (cb : CBState) : CBState :=
  if cb.state = CBStatus.HALF_OPEN then ⟨0, cb.last_failure_time, CBStatus.CLOSED⟩
  else if 0 < cb.failure_count then
    ⟨max 0 (cb.failure_count - 1), cb.last_failure_time, cb.state⟩
  else cb

/-- Embeds `is_circuit_open` (lines 114-125): in OPEN, once strictly more
than TIMEOUT_DURATION has elapsed since the last failure, move to HALF_OPEN
and admit; otherwise reject.  Outside OPEN the state is untouched and the
request admitted.  Returns (circuit considered open, updated state). -/
def is_circuit_open (t : ℚ) (cb : CBState) : Bool × CBState :=
  if cb.state = CBStatus.OPEN then
    if TIMEOUT_DURATION < t - cb.last_failure_time then
      (false, ⟨cb.failure_count, cb.last_failure_time, CBStatus.HALF_OPEN⟩)
    else (true, cb)
  else (false, cb)

/-- Folds `record_circuit_breaker_failure` over a list of failure times,
modelling a sequence of consecutive recorded failures. -/
def run_failures : List ℚ → CBState → CBState
  | [], cb => cb
  | t :: ts, cb => run_failures ts (record_circuit_breaker_failure t cb)

end ResilientApi

namespace AssetApi

/-- Breaker state of the deployed asset handler
(asset.3049463a...f9af9/lambda_function.py): `failures` (Python int),
`last_failure_time` (float or None, initialised to None), `state`.  The
`failure_threshold` (5) and `timeout` (60) entries of the dict are constants
never written, embedded below as definitions. -/
structure CBState where
  failures : Int
  last_failure_time : Option ℚ
  state : CBStatus
deriving DecidableEq, Repr

/-- `failure_threshold` entry of the asset handler's breaker dict. -/
def failure_threshold : Int := 5

/-- `timeout` entry of the asset handler's breaker dict. -/
def timeout : ℚ := 60

/-- The module-level initial breaker of the asset handler. -/
def initial_breaker : CBState := ⟨0, none, CBStatus.CLOSED⟩

/-- Embeds the asset handler's `record_circuit_breaker_failure`
(lines 304-311). -/
def record_circuit_breaker_failure (t : ℚ) (cb : CBState) : CBState :=
  let fc := cb.failures + 1
  if failure_threshold ≤ fc then ⟨fc, some t, CBStatus.OPEN⟩
  else ⟨fc, some t, cb.state⟩

/-- Embeds the asset handler's `record_circuit_breaker_success`
(lines 313-318): only a HALF_OPEN breaker reacts (close and reset); every
other state is left untouched (no decay in this variant). -/
def record_circuit_breaker_success (cb : CBState) : CBState :=
  if cb.state = CBStatus.HALF_OPEN then ⟨0, cb.last_failure_time, CBStatus.CLOSED⟩
  else cb

/-- Embeds `is_circuit_breaker_closed` (lines 291-302).  Returns
`none` when the Python code would raise (subtracting `None` from a float:
only possible in OPEN with `last_failure_time = None`), otherwise
`some (admitted, updated state)`. -/
def is_circuit_breaker_closed (t : ℚ) (cb : CBState) : Option (Bool × CBState) :=
  if cb.state = CBStatus.OPEN then
    match cb.last_failure_time with
    | none => none
    | some l =>
      if timeout < t - l then
        some (true, ⟨cb.failures, cb.last_failure_time, CBStatus.HALF_OPEN⟩)
      else some (false, cb)
  else some (true, cb)

/-- Folds `record_circuit_breaker_failure` over a list of failure times. -/
def run_failures : List ℚ → CBState → CBState
  | [], cb => cb
  | t :: ts, cb => run_failures ts (record_circuit_breaker_failure t cb)

end AssetApi

/-- Applying `run_failures` from a CLOSED resilient-api breaker whose counter
stays below the threshold yields a CLOSED breaker whose counter has grown by
the number of failures and whose timestamp is the last failure time. -/
lemma ResilientApi.run_failures_below_threshold (ts : List ℚ) :
    ∀ (c : Int) (l : ℚ), 0 ≤ c → c + ts.length < FAILURE_THRESHOLD →
      run_failures ts ⟨c, l, CBStatus.CLOSED⟩
        = ⟨c + ts.length, ts.getLastD l, CBStatus.CLOSED⟩ := by
  induction ts with
  | nil => intro c l _ _; simp [run_failures]
  | cons t ts ih =>
    intro c l hc hlt
    have hlen : ((t :: ts).length : Int) = (ts.length : Int) + 1 := by
      simp
    have hfc : ¬ FAILURE_THRESHOLD ≤ c + 1 := by
      rw [hlen] at hlt; omega
    have hrec : record_circuit_breaker_failure t ⟨c, l, CBStatus.CLOSED⟩
        = ⟨c + 1, t, CBStatus.CLOSED⟩ := by
      simp [record_circuit_breaker_failure, hfc]
    show run_failures ts (record_circuit_breaker_failure t ⟨c, l, CBStatus.CLOSED⟩) = _
    rw [hrec, ih (c + 1) t (by omega) (by rw [hlen] at hlt; omega)]
    congr 1
    · push_cast [List.length_cons]; ring
    · rw [List.getLastD_cons]

/-- Same below-threshold lemma for the asset-handler breaker variant. -/
lemma AssetApi.run_failures_below_threshold_b (ts : List ℚ) :
    ∀ (c : Int) (l : Option ℚ), 0 ≤ c → c + ts.length < failure_threshold →
      run_failures ts ⟨c, l, CBStatus.CLOSED⟩
        = ⟨c + ts.length, ts.foldl (fun _acc t => some t) l, CBStatus.CLOSED⟩ := by
  induction ts with
  | nil => intro c l _ _; simp [run_failures]
  | cons t ts ih =>
    intro c l hc hlt
    have hlen : ((t :: ts).length : Int) = (ts.length : Int) + 1 := by
      simp
    have hfc : ¬ failure_threshold ≤ c + 1 := by
      rw [hlen] at hlt; omega
    have hrec : record_circuit_breaker_failure t ⟨c, l, CBStatus.CLOSED⟩
        = ⟨c + 1, some t, CBStatus.CLOSED⟩ := by
      simp [record_circuit_breaker_failure, hfc]
    show run_failures ts (record_circuit_breaker_failure t ⟨c, l, CBStatus.CLOSED⟩) = _
    rw [hrec, ih (c + 1) (some t) (by omega) (by rw [hlen] at hlt; omega)]
    congr 1
    push_cast [List.length_cons]; ring

/-- Raw breaker operation of the resilient-api module: one call to
`record_circuit_breaker_failure` (at time `t`), to
`record_circuit_breaker_success`, or to the admission check
`is_circuit_open` (at time `t`). -/
inductive ResilientApi.RawOp where
  | failure (t : ℚ)
  | success
  | admission (t : ℚ)

/-- Effect of one raw breaker operation on the resilient-api state. -/
def ResilientApi.apply_raw (cb : ResilientApi.CBState) :
    ResilientApi.RawOp → ResilientApi.CBState
  | RawOp.failure t => record_circuit_breaker_failure t cb
  | RawOp.success => record_circuit_breaker_success cb
  | RawOp.admission t => (is_circuit_open t cb).2

/-- Folds a list of raw breaker operations over a state. -/
def ResilientApi.run_raw : List ResilientApi.RawOp → ResilientApi.CBState → ResilientApi.CBState
  | [], cb => cb
  | op :: ops, cb => run_raw ops (apply_raw cb op)

/-- Resilient-api breaker states reachable from the module-initial state by
any interleaving of the admission check and the two recording operations. -/
inductive ResilientApi.ReachableRaw : ResilientApi.CBState → Prop where
  | init : ReachableRaw initial_breaker
  | step (cb : CBState) (op : RawOp) : ReachableRaw cb → ReachableRaw (apply_raw cb op)

/-- Breaker-state effect of one complete resilient-api `lambda_handler`
invocation at time `t`: the admission check runs first; a rejected request
records nothing; an admitted request records a success when the routed
handler returns normally (`ok = true`) and a failure when it raises. -/
def ResilientApi.lambda_step (t : ℚ) (ok : Bool) (cb : ResilientApi.CBState) :
    ResilientApi.CBState :=
  let p := is_circuit_open t cb
  if p.1 then p.2
  else if ok then record_circuit_breaker_success p.2
  else record_circuit_breaker_failure t p.2

/-- Resilient-api breaker states reachable from the module-initial state by
interleavings of the three operations in which a success is never recorded
while the breaker is OPEN.  This is the call pattern of `lambda_handler`
itself: a request only reaches its success/failure recording after the
admission check has left the breaker in a non-OPEN state, so with requests
completing in admission order these are exactly the states the module
passes through. -/
inductive ResilientApi.ReachableSafe : ResilientApi.CBState → Prop where
  | init : ReachableSafe initial_breaker
  | fail (cb : CBState) (t : ℚ) :
      ReachableSafe cb → ReachableSafe (record_circuit_breaker_failure t cb)
  | succ (cb : CBState) : ReachableSafe cb → cb.state ≠ CBStatus.OPEN →
      ReachableSafe (record_circuit_breaker_success cb)
  | probe (cb : CBState) (t : ℚ) :
      ReachableSafe cb → ReachableSafe ((is_circuit_open t cb).2)

/-- Breaker invariant of the resilient-api variant: the counter is
non-negative, and in OPEN or HALF_OPEN it is at least the threshold. -/
def ResilientApi.Inv (cb : ResilientApi.CBState) : Prop :=
  0 ≤ cb.failure_count ∧
    ((cb.state = CBStatus.OPEN ∨ cb.state = CBStatus.HALF_OPEN) →
      FAILURE_THRESHOLD ≤ cb.failure_count)

/-- The initial resilient-api breaker satisfies the invariant. -/
lemma ResilientApi.inv_initial : ResilientApi.Inv ResilientApi.initial_breaker := by
  refine ⟨by norm_num [initial_breaker], fun h => ?_⟩
  rcases h with h | h <;> simp [initial_breaker] at h

/-- The admission check preserves the invariant, and whenever it admits the
request the state it leaves behind is not OPEN. -/
lemma ResilientApi.admission_inv (t : ℚ) (cb : ResilientApi.CBState)
    (h : ResilientApi.Inv cb) :
    ResilientApi.Inv (ResilientApi.is_circuit_open t cb).2 ∧
      ((ResilientApi.is_circuit_open t cb).1 = false →
        (ResilientApi.is_circuit_open t cb).2.state ≠ CBStatus.OPEN) := by
  obtain ⟨h1, h2⟩ := h
  unfold is_circuit_open
  split_ifs with hst hlt
  · exact ⟨⟨h1, fun _ => h2 (Or.inl hst)⟩, fun _ => by simp⟩
  · exact ⟨⟨h1, h2⟩, fun hfalse => by simp at hfalse⟩
  · exact ⟨⟨h1, h2⟩, fun _ => hst⟩

/-- Recording a success in a non-OPEN state preserves the invariant. -/
lemma ResilientApi.success_inv (cb : ResilientApi.CBState)
    (hno : cb.state ≠ CBStatus.OPEN) (h1 : 0 ≤ cb.failure_count) :
    ResilientApi.Inv (ResilientApi.record_circuit_breaker_success cb) := by
  unfold record_circuit_breaker_success
  split_ifs with hho hpos
  · exact ⟨le_rfl, fun hc => by rcases hc with hc | hc <;> simp at hc⟩
  · refine ⟨le_max_left _ _, fun hc => ?_⟩
    rcases hc with hc | hc
    · exact absurd hc hno
    · exact absurd hc hho
  · refine ⟨h1, fun hc => ?_⟩
    rcases hc with hc | hc
    · exact absurd hc hno
    · exact absurd hc hho

/-- Recording a failure in a state satisfying the invariant preserves the
invariant. -/
lemma ResilientApi.failure_inv (t : ℚ) (cb : ResilientApi.CBState)
    (h : ResilientApi.Inv cb) :
    ResilientApi.Inv (ResilientApi.record_circuit_breaker_failure t cb) := by
  obtain ⟨h1, h2⟩ := h
  simp only [record_circuit_breaker_failure]
  split_ifs with hth
  · exact ⟨by dsimp only; omega, fun _ => hth⟩
  · refine ⟨by dsimp only; omega, fun hc => ?_⟩
    have := h2 hc
    dsimp only
    omega

/-- Every safely reachable resilient-api breaker state satisfies the
invariant. -/
lemma ResilientApi.safe_inv (cb : ResilientApi.CBState)
    (h : ResilientApi.ReachableSafe cb) : ResilientApi.Inv cb := by
  induction h with
  | init => exact inv_initial
  | fail cb t hr ih => exact failure_inv t cb ih
  | succ cb hr hno ih => exact success_inv cb hno ih.1
  | probe cb t hr ih => exact (admission_inv t cb ih).1

/-- Safe reachability is preserved by a run of consecutive failures. -/
lemma ResilientApi.reachable_safe_run_failures (ts : List ℚ) :
    ∀ cb : ResilientApi.CBState, ResilientApi.ReachableSafe cb →
      ResilientApi.ReachableSafe (ResilientApi.run_failures ts cb) := by
  induction ts with
  | nil => intro cb h; exact h
  | cons t ts ih => intro cb h; exact ih _ (ReachableSafe.fail cb t h)

/-- Raw reachability is preserved by a run of consecutive failures
(resilient-api variant). -/
lemma ResilientApi.reachable_raw_run_failures (ts : List ℚ) :
    ∀ cb : ResilientApi.CBState, ResilientApi.ReachableRaw cb →
      ResilientApi.ReachableRaw (ResilientApi.run_failures ts cb) := by
  induction ts with
  | nil => intro cb h; exact h
  | cons t ts ih => intro cb h; exact ih _ (ReachableRaw.step cb (RawOp.failure t) h)

/-- Every raw-reachable resilient-api breaker state has a non-negative
failure counter. -/
lemma ResilientApi.raw_nonneg (cb : ResilientApi.CBState)
    (h : ResilientApi.ReachableRaw cb) : 0 ≤ cb.failure_count := by
  induction h with
  | init => norm_num [initial_breaker]
  | step cb op hr ih =>
    cases op with
    | failure t =>
      show 0 ≤ (record_circuit_breaker_failure t cb).failure_count
      simp only [record_circuit_breaker_failure]
      split_ifs <;> (try dsimp only) <;> omega
    | success =>
      show 0 ≤ (record_circuit_breaker_success cb).failure_count
      simp only [record_circuit_breaker_success]
      split_ifs <;> (try dsimp only) <;> omega
    | admission t =>
      show 0 ≤ (is_circuit_open t cb).2.failure_count
      simp only [is_circuit_open]
      split_ifs <;> (try dsimp only) <;> omega

/-- Raw breaker operation of the asset handler. -/
inductive AssetApi.RawOp where
  | failure (t : ℚ)
  | success
  | admission (t : ℚ)

/-- Asset-handler breaker states reachable from the module-initial state by
any interleaving of the three operations.  The admission step only fires
when `is_circuit_breaker_closed` returns (in Python: does not raise). -/
inductive AssetApi.ReachableRaw : AssetApi.CBState → Prop where
  | init : ReachableRaw initial_breaker
  | fail (cb : CBState) (t : ℚ) :
      ReachableRaw cb → ReachableRaw (record_circuit_breaker_failure t cb)
  | succ (cb : CBState) :
      ReachableRaw cb → ReachableRaw (record_circuit_breaker_success cb)
  | probe (cb cb2 : CBState) (t : ℚ) (b : Bool) :
      ReachableRaw cb → is_circuit_breaker_closed t cb = some (b, cb2) →
      ReachableRaw cb2

/-- Breaker invariant of the asset-handler variant: the counter is
non-negative, and in OPEN or HALF_OPEN the last-failure timestamp is set
and the counter is at least the threshold. -/
def AssetApi.Inv (cb : AssetApi.CBState) : Prop :=
  0 ≤ cb.failures ∧
    ((cb.state = CBStatus.OPEN ∨ cb.state = CBStatus.HALF_OPEN) →
      cb.last_failure_time.isSome = true ∧ failure_threshold ≤ cb.failures)

/-- Every raw-reachable asset-handler breaker state satisfies the
invariant. -/
lemma AssetApi.raw_inv (cb : AssetApi.CBState)
    (h : AssetApi.ReachableRaw cb) : AssetApi.Inv cb := by
  induction h with
  | init =>
    refine ⟨by norm_num [initial_breaker], fun hc => ?_⟩
    rcases hc with hc | hc <;> simp [initial_breaker] at hc
  | fail cb t hr ih =>
    obtain ⟨h1, h2⟩ := ih
    simp only [record_circuit_breaker_failure]
    split_ifs with hth
    · exact ⟨by dsimp only; omega, fun _ => ⟨rfl, hth⟩⟩
    · refine ⟨by dsimp only; omega, fun hc => ⟨rfl, ?_⟩⟩
      have := (h2 hc).2
      unfold failure_threshold at *
      dsimp only
      omega
  | succ cb hr ih =>
    obtain ⟨h1, h2⟩ := ih
    simp only [record_circuit_breaker_success]
    split_ifs with hho
    · exact ⟨le_rfl, fun hc => by rcases hc with hc | hc <;> simp at hc⟩
    · exact ⟨h1, h2⟩
  | probe cb cb2 t b hr heq ih =>
    obtain ⟨h1, h2⟩ := ih
    simp only [is_circuit_breaker_closed] at heq
    split_ifs at heq with hst
    · rcases hl : cb.last_failure_time with _ | l
      · rw [hl] at heq; simp at heq
      · rw [hl] at heq
        simp only at heq
        split_ifs at heq with hlt
        · simp only [Option.some.injEq, Prod.mk.injEq] at heq
          obtain ⟨-, rfl⟩ := heq
          exact ⟨h1, fun _ => ⟨rfl, (h2 (Or.inl hst)).2⟩⟩
        · simp only [Option.some.injEq, Prod.mk.injEq] at heq
          obtain ⟨-, rfl⟩ := heq
          exact ⟨h1, h2⟩
    · simp only [Option.some.injEq, Prod.mk.injEq] at heq
      obtain ⟨-, rfl⟩ := heq
      exact ⟨h1, h2⟩

/-- Raw reachability is preserved by a run of consecutive failures
(asset-handler variant). -/
lemma AssetApi.reachable_raw_run_failures_b (ts : List ℚ) :
    ∀ cb : AssetApi.CBState, AssetApi.ReachableRaw cb →
      AssetApi.ReachableRaw (AssetApi.run_failures ts cb) := by
  induction ts with
  | nil => intro cb h; exact h
  | cons t ts ih => intro cb h; exact ih _ (ReachableRaw.fail cb t h)


namespace HealthMonitor

/-- SLO metrics dict built by `calculate_slo_metrics` of the health-monitor
asset (asset.cd06a090...55fd5/lambda_function.py): target availability
99.9, availability percentage, remaining error budget, and the check
counts over the evaluation window. -/
structure SLOMetrics where
  target_availability : ℚ
  actual_availability : ℚ
  availability_percentage : ℚ
  error_budget_remaining : ℚ
  total_checks : ℕ
  successful_checks : ℕ
  failed_checks : ℕ
deriving DecidableEq, Repr

/-- Embeds `calculate_slo_metrics` (lines 196-251), applied to the list of
`Value` fields of the HEALTH_CHECK samples returned by the window scan.  A
sample counts as successful when its value is > 0.  With a non-empty
window the availability percentage is successful/total*100 and the
remaining error budget is max(0, (100 - 99.9) - (100 - availability));
with an empty window the initialised defaults (availability 0.0, error
budget 0.0) are returned unchanged, without an error. -/
def calculate_slo_metrics (values : List ℚ) : SLOMetrics :=
  let total_checks := values.length
  let successful_checks := values.countP (fun v => decide (0 < v))
  if 0 < total_checks then
    let availability_percentage := (successful_checks : ℚ) / (total_checks : ℚ) * 100
    let error_budget_used := 100 - availability_percentage
    let target_error_budget := 100 - (99.9 : ℚ)
    let error_budget_remaining := max 0 (target_error_budget - error_budget_used)
    ⟨99.9, availability_percentage, availability_percentage, error_budget_remaining,
      total_checks, successful_checks, total_checks - successful_checks⟩
  else ⟨99.9, 0, 0, 0, 0, 0, 0⟩

/-- Severity of an error-budget alert returned by `check_error_budget`. -/
inductive Severity where
  | HIGH
  | MEDIUM
deriving DecidableEq, Repr

/-- Embeds `check_error_budget` (lines 253-275): a HIGH alert below 0.05
remaining, a MEDIUM alert below 0.075, otherwise no alert.  The function
reads only the snapshot and returns the alert decision. -/
def check_error_budget (m : SLOMetrics) : Option Severity :=
  if m.error_budget_remaining < 0.05 then some Severity.HIGH
  else if m.error_budget_remaining < 0.075 then some Severity.MEDIUM
  else none

end HealthMonitor

/-- HTTP response shape, restricted to the fields the claims are about:
status code, the `error` string of the JSON body, the Retry-After header,
the circuit-breaker state echoed in the body, and the retryAfter hint in
the body. -/
structure ApiResponse where
  statusCode : ℕ
  errorMessage : Option String
  retryAfterHeader : Option String
  bodyCircuitState : Option CBStatus
  bodyRetryAfter : Option ℕ
deriving DecidableEq, Repr

/-- Body of an asset-handler POST /metrics request after JSON parsing: the
possibly-missing fields read by `handle_post_metrics`. -/
structure AssetApi.PostBody where
  service_name : Option String
  metric_type : Option String
  value : Option ℚ
  metadata : Option String
deriving DecidableEq, Repr

/-- Store/queue side effects of one asset-handler POST request: whether the
DynamoDB `put_item` ran and whether an SQS message was sent. -/
structure AssetApi.PostEffects where
  stored : Bool
  queued : Bool
deriving DecidableEq, Repr

/-- First missing entry of `required_fields = ['service_name',
'metric_type', 'value']` in the body, in the loop order of
`handle_post_metrics` (lines 218-224). -/
def AssetApi.missing_required_field (b : AssetApi.PostBody) : Option String :=
  if b.service_name = none then some "service_name"
  else if b.metric_type = none then some "metric_type"
  else if b.value = none then some "value"
  else none

/-- Embeds `handle_post_metrics` (lines 201-289) of the asset handler for a
body that parsed as JSON, abstracting the store, queue and metrics-sink
collaborators into effect flags (`q` says whether a processing queue URL is
configured): a missing required field short-circuits to a 400 naming the
field before any write; otherwise the item is stored (and queued when
configured) and a 201 returned.  The function has no retry logic. -/
def AssetApi.handle_post_metrics (q : Bool) (b : AssetApi.PostBody) :
    ApiResponse × AssetApi.PostEffects :=
  match missing_required_field b with
  | some f =>
    (⟨400, some ("Missing required field: " ++ f), none, none, none⟩, ⟨false, false⟩)
  | none => (⟨201, none, none, none, none⟩, ⟨true, q⟩)

/-- The asset `lambda_handler`'s breaker rejection (lines 44-52): 503 with
the breaker state echoed in the body; no Retry-After header and no
retryAfter body hint. -/
def AssetApi.circuit_breaker_rejection (cb : AssetApi.CBState) : ApiResponse :=
  ⟨503, some "Service temporarily unavailable", none, some cb.state, none⟩

/-- Embeds the asset `lambda_handler` path (lines 22-97) for a POST
/metrics request at time `t`: the admission check runs first; a rejected
request gets the 503 echoing the breaker state and no route handler runs;
an admitted request runs `handle_post_metrics`, whose normal return (201
and 400 alike) is then recorded as a breaker success.  Returns `none` when
the admission check itself would raise. -/
def AssetApi.handle_request_post (t : ℚ) (q : Bool) (b : AssetApi.PostBody)
    (cb : AssetApi.CBState) :
    Option (ApiResponse × AssetApi.PostEffects × AssetApi.CBState) :=
  match is_circuit_breaker_closed t cb with
  | none => none
  | some (closed, cb1) =>
    if closed then
      let r := handle_post_metrics q b
      some (r.1, r.2, record_circuit_breaker_success cb1)
    else some (circuit_breaker_rejection cb1, ⟨false, false⟩, cb1)

/-- Body of a resilient-api POST /metrics request after JSON parsing: the
fields read by `create_metric_with_queue`, of which only `serviceName` is
required. -/
structure ResilientApi.MetricBody where
  serviceName : Option String
  cpuUtilization : Option ℚ
  memoryUsage : Option ℚ
  requestCount : Option ℚ
deriving DecidableEq, Repr

/-- Result of the resilient-api write path: a response together with
whether a message was enqueued to the fallback queue, or a propagated
exception. -/
inductive ResilientApi.WriteResult where
  | response (r : ApiResponse) (queued : Bool)
  | raised
deriving DecidableEq, Repr

/-- Embeds `create_metric_with_queue` (lines 205-251) as the module
actually executes it.  Validation of the parsed body requires only
`serviceName` and fails fast with a 400 naming the field.  Past
validation, the module-level name `os` is unbound — the file
src/lambda/resilient-api/lambda_function.py never imports `os` — so
`os.environ` (line 221) raises NameError before the `put_item` call.
Neither `except ClientError` (line 241) nor `except json.JSONDecodeError`
(line 247) catches a NameError, so the exception propagates: no store
write is attempted, the throughput-exceeded ClientError can never arise,
and `queue_metric_for_processing` (lines 253-281) is never reached (it
would itself raise NameError at `os.environ` on line 263, re-raised by
its `except Exception`, before any SQS send).  The 201 direct-accept and
202 queued-accept branches of the source are dead code, so the result of
every post-validation call is a propagated exception and nothing is ever
enqueued. -/
def ResilientApi.create_metric_with_queue (b : ResilientApi.MetricBody) :
    ResilientApi.WriteResult :=
  if b.serviceName = none then
    WriteResult.response
      ⟨400, some ("Missing required field: " ++ "serviceName"), none, none, none⟩ false
  else WriteResult.raised

/-- The resilient-api `circuit_breaker_response` (lines 127-139): 503 with
Retry-After header "60" and body retryAfter hint 60; the body does not
echo the breaker state. -/
def ResilientApi.circuit_breaker_response : ApiResponse :=
  ⟨503, some "Service temporarily unavailable", some "60", none, some 60⟩

/-- Embeds the breaker-relevant skeleton of the resilient-api
`lambda_handler` (lines 38-112) for one request at time `t`: if the
admission check reports the circuit open, return
`circuit_breaker_response` with no route handler executed; otherwise run
the route handler, abstracted by its outcome (`some r` for a normal
response, `none` for a raised exception), and record breaker success or
failure.  Returns (response, new breaker state, whether the route handler
ran). -/
def ResilientApi.lambda_handler (t : ℚ) (routed : Option ApiResponse)
    (cb : ResilientApi.CBState) : ApiResponse × ResilientApi.CBState × Bool :=
  let p := is_circuit_open t cb
  if p.1 then (circuit_breaker_response, p.2, false)
  else
    match routed with
    | some r => (r, record_circuit_breaker_success p.2, true)
    | none =>
      (⟨500, some "Internal server error", none, none, none⟩,
        record_circuit_breaker_failure t p.2, true)

/-- Claim C1: starting from the initial breaker state (CLOSED, counter 0),
recording N consecutive failures leaves the state CLOSED for every N below
the threshold 5, and after exactly 5 consecutive failures the state is OPEN
with the last-failure timestamp equal to the time of the 5th (last) recorded
failure.  Proved for both breaker variants. -/
theorem claim_C1 :
    (∀ ts : List ℚ, (ts.length : Int) < ResilientApi.FAILURE_THRESHOLD →
      (ResilientApi.run_failures ts ResilientApi.initial_breaker).state = CBStatus.CLOSED) ∧
    (∀ t1 t2 t3 t4 t5 : ℚ,
      ResilientApi.run_failures [t1, t2, t3, t4, t5] ResilientApi.initial_breaker
        = ⟨5, t5, CBStatus.OPEN⟩) ∧
    (∀ ts : List ℚ, (ts.length : Int) < AssetApi.failure_threshold →
      (AssetApi.run_failures ts AssetApi.initial_breaker).state = CBStatus.CLOSED) ∧
    (∀ t1 t2 t3 t4 t5 : ℚ,
      AssetApi.run_failures [t1, t2, t3, t4, t5] AssetApi.initial_breaker
        = ⟨5, some t5, CBStatus.OPEN⟩) := by
  refine ⟨fun ts h => ?_, fun t1 t2 t3 t4 t5 => ?_, fun ts h => ?_, fun t1 t2 t3 t4 t5 => ?_⟩
  · rw [show ResilientApi.initial_breaker = ⟨0, 0, CBStatus.CLOSED⟩ from rfl,
      ResilientApi.run_failures_below_threshold ts 0 0 le_rfl (by omega)]
  · norm_num [ResilientApi.run_failures, ResilientApi.record_circuit_breaker_failure,
      ResilientApi.FAILURE_THRESHOLD, ResilientApi.initial_breaker]
  · rw [show AssetApi.initial_breaker = ⟨0, none, CBStatus.CLOSED⟩ from rfl,
      AssetApi.run_failures_below_threshold_b ts 0 none le_rfl (by omega)]
  · norm_num [AssetApi.run_failures, AssetApi.record_circuit_breaker_failure,
      AssetApi.failure_threshold, AssetApi.initial_breaker]

/-- Witness for C1: three failures at times 1, 2, 3 leave both breakers
CLOSED, and five failures at times 1..5 open them. -/
theorem claim_C1_witness :
    (ResilientApi.run_failures [1, 2, 3] ResilientApi.initial_breaker).state = CBStatus.CLOSED ∧
    ResilientApi.run_failures [1, 2, 3, 4, 5] ResilientApi.initial_breaker
      = ⟨5, 5, CBStatus.OPEN⟩ ∧
    (AssetApi.run_failures [1, 2, 3] AssetApi.initial_breaker).state = CBStatus.CLOSED ∧
    AssetApi.run_failures [1, 2, 3, 4, 5] AssetApi.initial_breaker
      = ⟨5, some 5, CBStatus.OPEN⟩ :=
  ⟨claim_C1.1 [1, 2, 3] (by norm_num [ResilientApi.FAILURE_THRESHOLD]), claim_C1.2.1 1 2 3 4 5,
    claim_C1.2.2.1 [1, 2, 3] (by norm_num [AssetApi.failure_threshold]), claim_C1.2.2.2 1 2 3 4 5⟩

/-- Claim C2: for every breaker in OPEN, the admission check rejects and
leaves the state OPEN while the elapsed time since the last failure is at
most the 60-second timeout; once the elapsed time strictly exceeds 60
seconds it admits and flips the state to HALF_OPEN; and the check mutates
the state only on that boundary condition.  Proved for `is_circuit_open`
(resilient-api) and `is_circuit_breaker_closed` (asset handler, whose
boolean is the complement: true means admitted). -/
theorem claim_C2 :
    (∀ (cb : ResilientApi.CBState) (t : ℚ), cb.state = CBStatus.OPEN →
      (t - cb.last_failure_time ≤ ResilientApi.TIMEOUT_DURATION →
        ResilientApi.is_circuit_open t cb = (true, cb)) ∧
      (ResilientApi.TIMEOUT_DURATION < t - cb.last_failure_time →
        ResilientApi.is_circuit_open t cb
          = (false, ⟨cb.failure_count, cb.last_failure_time, CBStatus.HALF_OPEN⟩))) ∧
    (∀ (cb : ResilientApi.CBState) (t : ℚ),
      ¬(cb.state = CBStatus.OPEN ∧ ResilientApi.TIMEOUT_DURATION < t - cb.last_failure_time) →
      (ResilientApi.is_circuit_open t cb).2 = cb) ∧
    (∀ (cb : AssetApi.CBState) (t l : ℚ), cb.state = CBStatus.OPEN →
      cb.last_failure_time = some l →
      (t - l ≤ AssetApi.timeout →
        AssetApi.is_circuit_breaker_closed t cb = some (false, cb)) ∧
      (AssetApi.timeout < t - l →
        AssetApi.is_circuit_breaker_closed t cb
          = some (true, ⟨cb.failures, cb.last_failure_time, CBStatus.HALF_OPEN⟩))) := by
  refine ⟨fun cb t hst => ⟨fun hle => ?_, fun hlt => ?_⟩, fun cb t h => ?_,
    fun cb t l hst hl => ⟨fun hle => ?_, fun hlt => ?_⟩⟩
  · rw [ResilientApi.is_circuit_open, if_pos hst, if_neg (not_lt.mpr hle)]
  · rw [ResilientApi.is_circuit_open, if_pos hst, if_pos hlt]
  · rw [ResilientApi.is_circuit_open]
    split_ifs with h1 h2
    · exact absurd ⟨h1, h2⟩ h
    · rfl
    · rfl
  · simp [AssetApi.is_circuit_breaker_closed, hst, hl, not_lt.mpr hle]
  · simp [AssetApi.is_circuit_breaker_closed, hst, hl, hlt]

/-- Witness for C2: a breaker opened at time 0 rejects at time 30 and
admits at time 100, in both variants. -/
theorem claim_C2_witness :
    ResilientApi.is_circuit_open 30 ⟨5, 0, CBStatus.OPEN⟩ = (true, ⟨5, 0, CBStatus.OPEN⟩) ∧
    ResilientApi.is_circuit_open 100 ⟨5, 0, CBStatus.OPEN⟩
      = (false, ⟨5, 0, CBStatus.HALF_OPEN⟩) ∧
    (ResilientApi.is_circuit_open 30 ⟨5, 0, CBStatus.OPEN⟩).2 = ⟨5, 0, CBStatus.OPEN⟩ ∧
    AssetApi.is_circuit_breaker_closed 30 ⟨5, some 0, CBStatus.OPEN⟩
      = some (false, ⟨5, some 0, CBStatus.OPEN⟩) ∧
    AssetApi.is_circuit_breaker_closed 100 ⟨5, some 0, CBStatus.OPEN⟩
      = some (true, ⟨5, some 0, CBStatus.HALF_OPEN⟩) :=
  ⟨(claim_C2.1 ⟨5, 0, CBStatus.OPEN⟩ 30 rfl).1 (by norm_num [ResilientApi.TIMEOUT_DURATION]),
    (claim_C2.1 ⟨5, 0, CBStatus.OPEN⟩ 100 rfl).2 (by norm_num [ResilientApi.TIMEOUT_DURATION]),
    claim_C2.2.1 ⟨5, 0, CBStatus.OPEN⟩ 30
      (by norm_num [ResilientApi.TIMEOUT_DURATION]),
    (claim_C2.2.2 ⟨5, some 0, CBStatus.OPEN⟩ 30 0 rfl rfl).1
      (by norm_num [AssetApi.timeout]),
    (claim_C2.2.2 ⟨5, some 0, CBStatus.OPEN⟩ 100 0 rfl rfl).2
      (by norm_num [AssetApi.timeout])⟩

/-- Claim C3: in every reachable breaker state whose state is HALF_OPEN,
recording a success transitions to CLOSED with the counter reset to 0, and
recording a failure transitions back to OPEN with the last-failure
timestamp updated to the failure time.  For the resilient-api variant,
reachability is through the handler's own call pattern (`ReachableSafe`,
no success recorded while OPEN), under which the counter is still at the
threshold when HALF_OPEN is entered; for the asset variant any raw
interleaving works, since its success recording is a no-op outside
HALF_OPEN. -/
theorem claim_C3 :
    (∀ cb : ResilientApi.CBState, ResilientApi.ReachableSafe cb →
      cb.state = CBStatus.HALF_OPEN →
      ResilientApi.record_circuit_breaker_success cb
        = ⟨0, cb.last_failure_time, CBStatus.CLOSED⟩ ∧
      ∀ t : ℚ, ResilientApi.record_circuit_breaker_failure t cb
        = ⟨cb.failure_count + 1, t, CBStatus.OPEN⟩) ∧
    (∀ cb : AssetApi.CBState, AssetApi.ReachableRaw cb →
      cb.state = CBStatus.HALF_OPEN →
      AssetApi.record_circuit_breaker_success cb
        = ⟨0, cb.last_failure_time, CBStatus.CLOSED⟩ ∧
      ∀ t : ℚ, AssetApi.record_circuit_breaker_failure t cb
        = ⟨cb.failures + 1, some t, CBStatus.OPEN⟩) := by
  constructor
  · intro cb hr hho
    have hinv := ResilientApi.safe_inv cb hr
    have h5 : ResilientApi.FAILURE_THRESHOLD ≤ cb.failure_count := hinv.2 (Or.inr hho)
    refine ⟨by simp [ResilientApi.record_circuit_breaker_success, hho], fun t => ?_⟩
    have hth : ResilientApi.FAILURE_THRESHOLD ≤ cb.failure_count + 1 := by omega
    simp [ResilientApi.record_circuit_breaker_failure, hth]
  · intro cb hr hho
    have hinv := AssetApi.raw_inv cb hr
    have h5 : AssetApi.failure_threshold ≤ cb.failures := (hinv.2 (Or.inr hho)).2
    refine ⟨by simp [AssetApi.record_circuit_breaker_success, hho], fun t => ?_⟩
    have hth : AssetApi.failure_threshold ≤ cb.failures + 1 := by omega
    simp [AssetApi.record_circuit_breaker_failure, hth]

/-- Witness for C3: the HALF_OPEN state reached by five failures at times
1..5 followed by an admission check at time 100 closes on success and
re-opens on a failure at time 200, in both variants. -/
theorem claim_C3_witness :
    ResilientApi.record_circuit_breaker_success ⟨5, 5, CBStatus.HALF_OPEN⟩
      = ⟨0, 5, CBStatus.CLOSED⟩ ∧
    ResilientApi.record_circuit_breaker_failure 200 ⟨5, 5, CBStatus.HALF_OPEN⟩
      = ⟨6, 200, CBStatus.OPEN⟩ ∧
    AssetApi.record_circuit_breaker_success ⟨5, some 5, CBStatus.HALF_OPEN⟩
      = ⟨0, some 5, CBStatus.CLOSED⟩ ∧
    AssetApi.record_circuit_breaker_failure 200 ⟨5, some 5, CBStatus.HALF_OPEN⟩
      = ⟨6, some 200, CBStatus.OPEN⟩ := by
  have hsafeOpen : ResilientApi.ReachableSafe ⟨5, 5, CBStatus.OPEN⟩ := by
    have h := ResilientApi.reachable_safe_run_failures [1, 2, 3, 4, 5] _
      ResilientApi.ReachableSafe.init
    rwa [show ResilientApi.run_failures [1, 2, 3, 4, 5] ResilientApi.initial_breaker
      = ⟨5, 5, CBStatus.OPEN⟩ from by decide] at h
  have hsafe : ResilientApi.ReachableSafe ⟨5, 5, CBStatus.HALF_OPEN⟩ := by
    have h := ResilientApi.ReachableSafe.probe _ 100 hsafeOpen
    rwa [show (ResilientApi.is_circuit_open 100 ⟨5, 5, CBStatus.OPEN⟩).2
      = ⟨5, 5, CBStatus.HALF_OPEN⟩ from by
        norm_num [ResilientApi.is_circuit_open, ResilientApi.TIMEOUT_DURATION]] at h
  have hrawOpen : AssetApi.ReachableRaw ⟨5, some 5, CBStatus.OPEN⟩ := by
    have h := AssetApi.reachable_raw_run_failures_b [1, 2, 3, 4, 5] _
      AssetApi.ReachableRaw.init
    rwa [show AssetApi.run_failures [1, 2, 3, 4, 5] AssetApi.initial_breaker
      = ⟨5, some 5, CBStatus.OPEN⟩ from by decide] at h
  have hraw : AssetApi.ReachableRaw ⟨5, some 5, CBStatus.HALF_OPEN⟩ :=
    AssetApi.ReachableRaw.probe _ _ 100 true hrawOpen
      (by norm_num [AssetApi.is_circuit_breaker_closed, AssetApi.timeout])
  obtain ⟨ha1, ha2⟩ := claim_C3.1 _ hsafe rfl
  obtain ⟨hb1, hb2⟩ := claim_C3.2 _ hraw rfl
  exact ⟨ha1, ha2 200, hb1, hb2 200⟩

/-- Claim C4 counterexample: the claim quantifies over states reachable by
any interleaving of the three operations and asserts that OPEN implies the
counter is at least the threshold 5; in the resilient-api success-decay
variant, five failures followed by one recorded success (an interleaving
of the operations) leave the breaker OPEN with counter 4 < 5, because
`record_circuit_breaker_success` decrements the counter in every
non-HALF_OPEN state, including OPEN. -/
theorem claim_C4_counterexample :
    ResilientApi.ReachableRaw
      (ResilientApi.record_circuit_breaker_success
        (ResilientApi.run_failures [1, 2, 3, 4, 5] ResilientApi.initial_breaker)) ∧
    (ResilientApi.record_circuit_breaker_success
        (ResilientApi.run_failures [1, 2, 3, 4, 5] ResilientApi.initial_breaker)).state
      = CBStatus.OPEN ∧
    (ResilientApi.record_circuit_breaker_success
        (ResilientApi.run_failures [1, 2, 3, 4, 5] ResilientApi.initial_breaker)).failure_count
      < ResilientApi.FAILURE_THRESHOLD := by
  refine ⟨?_, by decide, by decide⟩
  exact ResilientApi.ReachableRaw.step _ ResilientApi.RawOp.success
    (ResilientApi.reachable_raw_run_failures [1, 2, 3, 4, 5] _
      ResilientApi.ReachableRaw.init)

/-- Claim C4 (amended): in every breaker state reachable by any
interleaving of the admission check, record-success and record-failure,
the failure counter is non-negative in both variants; the full OPEN
invariant (last-failure timestamp set and counter at least the threshold
5) holds under any interleaving for the asset variant, whose success
recording does not decay the counter; for the success-decay resilient-api
variant the counter bound holds for the interleavings in which no success
is recorded while the breaker is OPEN (the handler's own call pattern),
since the decay branch fires in any non-HALF_OPEN state, not only
CLOSED. -/
theorem claim_C4 :
    (∀ cb : ResilientApi.CBState, ResilientApi.ReachableRaw cb →
      0 ≤ cb.failure_count) ∧
    (∀ cb : AssetApi.CBState, AssetApi.ReachableRaw cb →
      0 ≤ cb.failures ∧
      (cb.state = CBStatus.OPEN →
        cb.last_failure_time.isSome = true ∧ AssetApi.failure_threshold ≤ cb.failures)) ∧
    (∀ cb : ResilientApi.CBState, ResilientApi.ReachableSafe cb →
      0 ≤ cb.failure_count ∧
      (cb.state = CBStatus.OPEN →
        ResilientApi.FAILURE_THRESHOLD ≤ cb.failure_count)) := by
  refine ⟨ResilientApi.raw_nonneg, fun cb h => ?_, fun cb h => ?_⟩
  · obtain ⟨h1, h2⟩ := AssetApi.raw_inv cb h
    exact ⟨h1, fun ho => h2 (Or.inl ho)⟩
  · obtain ⟨h1, h2⟩ := ResilientApi.safe_inv cb h
    exact ⟨h1, fun ho => h2 (Or.inl ho)⟩

/-- Witness for C4: the initial resilient-api breaker has a non-negative
counter, and the asset breaker opened by five failures at times 1..5 has
its timestamp set and counter at the threshold. -/
theorem claim_C4_witness :
    0 ≤ ResilientApi.initial_breaker.failure_count ∧
    ((AssetApi.run_failures [1, 2, 3, 4, 5] AssetApi.initial_breaker).last_failure_time.isSome
        = true ∧
      AssetApi.failure_threshold
        ≤ (AssetApi.run_failures [1, 2, 3, 4, 5] AssetApi.initial_breaker).failures) ∧
    0 ≤ ResilientApi.initial_breaker.failure_count :=
  ⟨claim_C4.1 _ ResilientApi.ReachableRaw.init,
    (claim_C4.2.1 _ (AssetApi.reachable_raw_run_failures_b [1, 2, 3, 4, 5] _
      AssetApi.ReachableRaw.init)).2 (by decide),
    (claim_C4.2.2 _ ResilientApi.ReachableSafe.init).1⟩

/-- Claim C5: for every window of HEALTH_CHECK sample values, the SLO
calculation returns availabilityPercentage = (count of samples with value
> 0) / (total count) * 100 and errorBudgetRemaining =
max(0, (100 - 99.9) - (100 - availabilityPercentage)); an empty window
yields availabilityPercentage 0.0 without an error; and 99 healthy samples
out of 100 yield availability 99.0 with error budget remaining 0. -/
theorem claim_C5 :
    (∀ values : List ℚ, values ≠ [] →
      (HealthMonitor.calculate_slo_metrics values).availability_percentage
        = ((values.countP (fun v => decide (0 < v)) : ℚ) / (values.length : ℚ)) * 100 ∧
      (HealthMonitor.calculate_slo_metrics values).error_budget_remaining
        = max 0 ((100 - (99.9 : ℚ))
            - (100 - (HealthMonitor.calculate_slo_metrics values).availability_percentage))) ∧
    (HealthMonitor.calculate_slo_metrics []).availability_percentage = 0 ∧
    (HealthMonitor.calculate_slo_metrics
        (List.replicate 99 (1 : ℚ) ++ [0])).availability_percentage = 99 ∧
    (HealthMonitor.calculate_slo_metrics
        (List.replicate 99 (1 : ℚ) ++ [0])).error_budget_remaining = 0 := by
  have hmain : ∀ values : List ℚ, values ≠ [] →
      (HealthMonitor.calculate_slo_metrics values).availability_percentage
        = ((values.countP (fun v => decide (0 < v)) : ℚ) / (values.length : ℚ)) * 100 ∧
      (HealthMonitor.calculate_slo_metrics values).error_budget_remaining
        = max 0 ((100 - (99.9 : ℚ))
            - (100 - (HealthMonitor.calculate_slo_metrics values).availability_percentage)) := by
    intro values hne
    have hpos : 0 < values.length := List.length_pos.mpr hne
    constructor <;> simp [HealthMonitor.calculate_slo_metrics, hpos]
  have hc : (List.replicate 99 (1 : ℚ) ++ [0]).countP (fun v => decide (0 < v)) = 99 := by
    decide
  have hl : (List.replicate 99 (1 : ℚ) ++ [0]).length = 100 := by simp
  refine ⟨hmain, rfl, ?_, ?_⟩
  · have h := (hmain (List.replicate 99 (1 : ℚ) ++ [0]) (by simp)).1
    rw [h, hc, hl]
    push_cast
    norm_num
  · have h1 := (hmain (List.replicate 99 (1 : ℚ) ++ [0]) (by simp)).1
    have h2 := (hmain (List.replicate 99 (1 : ℚ) ++ [0]) (by simp)).2
    rw [h1, hc, hl] at h2
    rw [h2]
    push_cast
    norm_num

/-- Witness for C5: a window with one healthy and one unhealthy sample has
availability 1/2*100 and error budget max(0, 0.1 - 50). -/
theorem claim_C5_witness :
    (HealthMonitor.calculate_slo_metrics [1, 0]).availability_percentage
      = ((([(1 : ℚ), 0].countP (fun v => decide (0 < v))) : ℚ)
          / (([(1 : ℚ), 0].length : ℕ) : ℚ)) * 100 ∧
    (HealthMonitor.calculate_slo_metrics [1, 0]).error_budget_remaining
      = max 0 ((100 - (99.9 : ℚ))
          - (100 - (HealthMonitor.calculate_slo_metrics [1, 0]).availability_percentage)) :=
  claim_C5.1 [1, 0] (by simp)

/-- Claim C6: the error-budget alerter is a pure function of the SLO
snapshot (in this embedding `check_error_budget` maps the snapshot to the
alert decision and touches nothing else): it returns a HIGH alert exactly
when errorBudgetRemaining < 0.05, a MEDIUM alert exactly when
0.05 <= errorBudgetRemaining < 0.075, no alert exactly when
errorBudgetRemaining >= 0.075; and 0.03 yields HIGH, 0.06 yields MEDIUM,
0.09 yields no alert. -/
theorem claim_C6 :
    (∀ m : HealthMonitor.SLOMetrics,
      HealthMonitor.check_error_budget m = some HealthMonitor.Severity.HIGH ↔
        m.error_budget_remaining < 0.05) ∧
    (∀ m : HealthMonitor.SLOMetrics,
      HealthMonitor.check_error_budget m = some HealthMonitor.Severity.MEDIUM ↔
        0.05 ≤ m.error_budget_remaining ∧ m.error_budget_remaining < 0.075) ∧
    (∀ m : HealthMonitor.SLOMetrics,
      HealthMonitor.check_error_budget m = none ↔ 0.075 ≤ m.error_budget_remaining) ∧
    (∀ m : HealthMonitor.SLOMetrics, m.error_budget_remaining = 0.03 →
      HealthMonitor.check_error_budget m = some HealthMonitor.Severity.HIGH) ∧
    (∀ m : HealthMonitor.SLOMetrics, m.error_budget_remaining = 0.06 →
      HealthMonitor.check_error_budget m = some HealthMonitor.Severity.MEDIUM) ∧
    (∀ m : HealthMonitor.SLOMetrics, m.error_budget_remaining = 0.09 →
      HealthMonitor.check_error_budget m = none) := by
  refine ⟨fun m => ?_, fun m => ?_, fun m => ?_, fun m h => ?_, fun m h => ?_, fun m h => ?_⟩
  · unfold HealthMonitor.check_error_budget
    split_ifs with h1 h2
    · simp [h1]
    · simp [h1]
    · simp [h1]
  · unfold HealthMonitor.check_error_budget
    split_ifs with h1 h2
    · constructor
      · intro hh; simp at hh
      · intro hh; linarith [hh.1]
    · exact ⟨fun _ => ⟨not_lt.mp h1, h2⟩, fun _ => rfl⟩
    · constructor
      · intro hh; simp at hh
      · intro hh; exact absurd hh.2 h2
  · unfold HealthMonitor.check_error_budget
    split_ifs with h1 h2
    · constructor
      · intro hh; simp at hh
      · intro hh; linarith
    · constructor
      · intro hh; simp at hh
      · intro hh; linarith
    · exact ⟨fun _ => not_lt.mp h2, fun _ => rfl⟩
  · simp only [HealthMonitor.check_error_budget, h]
    norm_num
  · simp only [HealthMonitor.check_error_budget, h]
    norm_num
  · simp only [HealthMonitor.check_error_budget, h]
    norm_num

/-- Witness for C6: snapshots with error budget remaining 0.03, 0.06 and
0.09 yield a HIGH alert, a MEDIUM alert and no alert respectively. -/
theorem claim_C6_witness :
    HealthMonitor.check_error_budget ⟨99.9, 99, 99, 0.03, 100, 99, 1⟩
      = some HealthMonitor.Severity.HIGH ∧
    HealthMonitor.check_error_budget ⟨99.9, 99, 99, 0.06, 100, 99, 1⟩
      = some HealthMonitor.Severity.MEDIUM ∧
    HealthMonitor.check_error_budget ⟨99.9, 99, 99, 0.09, 100, 99, 1⟩ = none :=
  ⟨claim_C6.2.2.2.1 _ rfl, claim_C6.2.2.2.2.1 _ rfl, claim_C6.2.2.2.2.2 _ rfl⟩

/-- Claim C10: with an empty HEALTH_CHECK window the SLO calculation leaves
errorBudgetRemaining at 0.0, and feeding that snapshot to the error-budget
alerter yields a HIGH alert: the implementation does not suppress alerting
on zero data. -/
theorem claim_C10 :
    (HealthMonitor.calculate_slo_metrics []).error_budget_remaining = 0 ∧
    HealthMonitor.check_error_budget (HealthMonitor.calculate_slo_metrics [])
      = some HealthMonitor.Severity.HIGH := by
  constructor
  · rfl
  · norm_num [HealthMonitor.calculate_slo_metrics, HealthMonitor.check_error_budget]

/-- Claim C7 counterexample: the claim asserts the breaker failure counter
is unchanged by a missing-field request; in the asset handler a reachable
HALF_OPEN breaker with counter 5 admits the request, the 400 return is
recorded as a breaker success, and the counter is reset to 0. -/
theorem claim_C7_counterexample :
    AssetApi.ReachableRaw ⟨5, some 5, CBStatus.HALF_OPEN⟩ ∧
    AssetApi.handle_request_post 100 true ⟨some "svc", some "latency", none, none⟩
        ⟨5, some 5, CBStatus.HALF_OPEN⟩
      = some (⟨400, some "Missing required field: value", none, none, none⟩,
          ⟨false, false⟩, ⟨0, some 5, CBStatus.CLOSED⟩) ∧
    ((⟨0, some 5, CBStatus.CLOSED⟩ : AssetApi.CBState).failures
      ≠ (⟨5, some 5, CBStatus.HALF_OPEN⟩ : AssetApi.CBState).failures) := by
  refine ⟨?_, by decide, by decide⟩
  have hrawOpen : AssetApi.ReachableRaw ⟨5, some 5, CBStatus.OPEN⟩ := by
    have h := AssetApi.reachable_raw_run_failures_b [1, 2, 3, 4, 5] _
      AssetApi.ReachableRaw.init
    rwa [show AssetApi.run_failures [1, 2, 3, 4, 5] AssetApi.initial_breaker
      = ⟨5, some 5, CBStatus.OPEN⟩ from by decide] at h
  exact AssetApi.ReachableRaw.probe _ _ 100 true hrawOpen
    (by norm_num [AssetApi.is_circuit_breaker_closed, AssetApi.timeout])

/-- Claim C7 (amended): a POST /metrics body that parses as JSON but lacks
a required field (in particular a missing `value` with the other fields
present) is answered with a 400 naming the missing field, with no store
write, no queue write and no retry, and is never counted as a breaker
failure: the counter is never incremented.  However, the 400 return path
is recorded as a breaker success, so when the breaker is HALF_OPEN at
admission the counter is reset to 0; in every other admitted state it is
unchanged.  (In the resilient-api decay variant a recorded success never
increases the counter either.) -/
theorem claim_C7 :
    (∀ b : AssetApi.PostBody, b.service_name ≠ none → b.metric_type ≠ none →
      b.value = none → AssetApi.missing_required_field b = some "value") ∧
    (∀ (q : Bool) (b : AssetApi.PostBody) (f : String),
      AssetApi.missing_required_field b = some f →
      AssetApi.handle_post_metrics q b
        = (⟨400, some ("Missing required field: " ++ f), none, none, none⟩,
          ⟨false, false⟩)) ∧
    (∀ (t : ℚ) (q : Bool) (b : AssetApi.PostBody) (f : String)
        (cb cb1 : AssetApi.CBState),
      AssetApi.missing_required_field b = some f →
      AssetApi.is_circuit_breaker_closed t cb = some (true, cb1) →
      AssetApi.handle_request_post t q b cb
        = some (⟨400, some ("Missing required field: " ++ f), none, none, none⟩,
            ⟨false, false⟩, AssetApi.record_circuit_breaker_success cb1) ∧
      (AssetApi.record_circuit_breaker_success cb1).failures
        = (if cb1.state = CBStatus.HALF_OPEN then 0 else cb1.failures)) ∧
    (∀ cb : ResilientApi.CBState, 0 ≤ cb.failure_count →
      (ResilientApi.record_circuit_breaker_success cb).failure_count
        ≤ cb.failure_count) := by
  refine ⟨fun b h1 h2 h3 => ?_, fun q b f hf => ?_,
    fun t q b f cb cb1 hf hc => ⟨?_, ?_⟩, fun cb h => ?_⟩
  · unfold AssetApi.missing_required_field
    rw [if_neg h1, if_neg h2, if_pos h3]
  · unfold AssetApi.handle_post_metrics
    rw [hf]
  · unfold AssetApi.handle_request_post
    rw [hc]
    simp [AssetApi.handle_post_metrics, hf]
  · unfold AssetApi.record_circuit_breaker_success
    split_ifs <;> rfl
  · unfold ResilientApi.record_circuit_breaker_success
    split_ifs <;> (try dsimp only) <;> omega

/-- Witness for C7: a body with serviceName and metricType but no value is
rejected with "Missing required field: value", writes nothing, and leaves
a CLOSED breaker's counter unchanged; a resilient-api success never grows
a counter of 3. -/
theorem claim_C7_witness :
    AssetApi.missing_required_field ⟨some "svc", some "latency", none, none⟩
      = some "value" ∧
    AssetApi.handle_post_metrics true ⟨some "svc", some "latency", none, none⟩
      = (⟨400, some ("Missing required field: " ++ "value"), none, none, none⟩,
        ⟨false, false⟩) ∧
    (AssetApi.handle_request_post 10 true ⟨some "svc", some "latency", none, none⟩
        ⟨0, none, CBStatus.CLOSED⟩
      = some (⟨400, some ("Missing required field: " ++ "value"), none, none, none⟩,
          ⟨false, false⟩,
          AssetApi.record_circuit_breaker_success ⟨0, none, CBStatus.CLOSED⟩) ∧
      (AssetApi.record_circuit_breaker_success ⟨0, none, CBStatus.CLOSED⟩).failures
        = (if (⟨0, none, CBStatus.CLOSED⟩ : AssetApi.CBState).state = CBStatus.HALF_OPEN
            then 0 else (⟨0, none, CBStatus.CLOSED⟩ : AssetApi.CBState).failures)) ∧
    (ResilientApi.record_circuit_breaker_success ⟨3, 0, CBStatus.CLOSED⟩).failure_count
      ≤ 3 :=
  ⟨claim_C7.1 _ (by decide) (by decide) rfl,
    claim_C7.2.1 true _ "value" (by decide),
    claim_C7.2.2.1 10 true _ "value" _ _ (by decide) (by decide),
    claim_C7.2.2.2 ⟨3, 0, CBStatus.CLOSED⟩ (by norm_num)⟩

/-- Claim C8 (code bug): the claim states the intended overload-fallback
contract — a valid write whose direct store write fails with the
throughput-exceeded error and whose fallback queue accepts returns a 202
queued-accept — but the resilient-api module never imports `os`, so
every post-validation call of `create_metric_with_queue` raises NameError
at `os.environ` before any store write: the classified overload error
cannot occur, the fallback-queue code is never reached, nothing is ever
enqueued, and no 202 queued-accept (nor 201) response is ever returned;
the exception surfaces at `lambda_handler` as a 500 counted as a breaker
failure. -/
theorem claim_C8 :
    ∀ b : ResilientApi.MetricBody,
      (b.serviceName ≠ none →
        ResilientApi.create_metric_with_queue b = ResilientApi.WriteResult.raised) ∧
      (∀ r : ApiResponse,
        ResilientApi.create_metric_with_queue b
          ≠ ResilientApi.WriteResult.response r true) := by
  intro b
  constructor
  · intro hb
    simp [ResilientApi.create_metric_with_queue, hb]
  · intro r
    unfold ResilientApi.create_metric_with_queue
    split_ifs <;> simp

/-- Witness for C8: the valid body naming service "svc" makes the write
path raise (never a queued 202). -/
theorem claim_C8_witness :
    ResilientApi.create_metric_with_queue ⟨some "svc", none, none, none⟩
      = ResilientApi.WriteResult.raised ∧
    ResilientApi.create_metric_with_queue ⟨some "svc", none, none, none⟩
      ≠ ResilientApi.WriteResult.response ⟨202, none, none, none, none⟩ true :=
  ⟨(claim_C8 ⟨some "svc", none, none, none⟩).1 (by decide),
    (claim_C8 ⟨some "svc", none, none, none⟩).2 ⟨202, none, none, none, none⟩⟩

/-- Claim C9 counterexample: the claim requires every in-timeout rejection
to carry both the breaker's current state in the body and a retry-after
hint; after five failures at times 1..5, a request at time 30 gets the
resilient-api 503 whose body does not include the breaker state (and the
asset-handler 503, which does echo the state, carries no retry-after
hint). -/
theorem claim_C9_counterexample :
    (ResilientApi.lambda_handler 30 (some ⟨200, none, none, none, none⟩)
        (ResilientApi.run_failures [1, 2, 3, 4, 5] ResilientApi.initial_breaker)).1.statusCode
      = 503 ∧
    (ResilientApi.lambda_handler 30 (some ⟨200, none, none, none, none⟩)
        (ResilientApi.run_failures [1, 2, 3, 4, 5] ResilientApi.initial_breaker)).1.bodyCircuitState
      = none ∧
    AssetApi.handle_request_post 30 true ⟨some "svc", some "latency", some 1, none⟩
        (AssetApi.run_failures [1, 2, 3, 4, 5] AssetApi.initial_breaker)
      = some (⟨503, some "Service temporarily unavailable", none, some CBStatus.OPEN, none⟩,
          ⟨false, false⟩, ⟨5, some 5, CBStatus.OPEN⟩) := by
  have h5 : ResilientApi.run_failures [1, 2, 3, 4, 5] ResilientApi.initial_breaker
      = ⟨5, 5, CBStatus.OPEN⟩ := by decide
  have h5b : AssetApi.run_failures [1, 2, 3, 4, 5] AssetApi.initial_breaker
      = ⟨5, some 5, CBStatus.OPEN⟩ := by decide
  refine ⟨?_, ?_, ?_⟩
  · rw [h5]
    norm_num [ResilientApi.lambda_handler, ResilientApi.is_circuit_open,
      ResilientApi.TIMEOUT_DURATION, ResilientApi.circuit_breaker_response]
  · rw [h5]
    norm_num [ResilientApi.lambda_handler, ResilientApi.is_circuit_open,
      ResilientApi.TIMEOUT_DURATION, ResilientApi.circuit_breaker_response]
  · rw [h5b]
    norm_num [AssetApi.handle_request_post, AssetApi.is_circuit_breaker_closed,
      AssetApi.timeout, AssetApi.circuit_breaker_rejection]

/-- Claim C9 (amended): five consecutive recorded failures open the
breaker, and every subsequent request within the open timeout is rejected
with a 503 and no route handler executed; the resilient-api rejection
carries the Retry-After header "60" and body retryAfter 60 but no breaker
state in the body, while the asset-handler rejection echoes the breaker's
current state in the body but carries no retry-after hint. -/
theorem claim_C9 :
    (∀ t1 t2 t3 t4 t5 : ℚ,
      (ResilientApi.run_failures [t1, t2, t3, t4, t5] ResilientApi.initial_breaker).state
        = CBStatus.OPEN) ∧
    (∀ (t : ℚ) (routed : Option ApiResponse) (cb : ResilientApi.CBState),
      cb.state = CBStatus.OPEN →
      t - cb.last_failure_time ≤ ResilientApi.TIMEOUT_DURATION →
      ResilientApi.lambda_handler t routed cb
        = (ResilientApi.circuit_breaker_response, cb, false)) ∧
    (ResilientApi.circuit_breaker_response.statusCode = 503 ∧
      ResilientApi.circuit_breaker_response.retryAfterHeader = some "60" ∧
      ResilientApi.circuit_breaker_response.bodyRetryAfter = some 60 ∧
      ResilientApi.circuit_breaker_response.bodyCircuitState = none) ∧
    (∀ (t : ℚ) (q : Bool) (b : AssetApi.PostBody) (cb : AssetApi.CBState) (l : ℚ),
      cb.state = CBStatus.OPEN → cb.last_failure_time = some l →
      t - l ≤ AssetApi.timeout →
      AssetApi.handle_request_post t q b cb
        = some (AssetApi.circuit_breaker_rejection cb, ⟨false, false⟩, cb)) ∧
    (∀ cb : AssetApi.CBState,
      (AssetApi.circuit_breaker_rejection cb).statusCode = 503 ∧
      (AssetApi.circuit_breaker_rejection cb).bodyCircuitState = some cb.state ∧
      (AssetApi.circuit_breaker_rejection cb).retryAfterHeader = none ∧
      (AssetApi.circuit_breaker_rejection cb).bodyRetryAfter = none) := by
  refine ⟨fun t1 t2 t3 t4 t5 => ?_, fun t routed cb hst hle => ?_,
    ⟨rfl, rfl, rfl, rfl⟩, fun t q b cb l hst hl hle => ?_,
    fun cb => ⟨rfl, rfl, rfl, rfl⟩⟩
  · norm_num [ResilientApi.run_failures, ResilientApi.record_circuit_breaker_failure,
      ResilientApi.FAILURE_THRESHOLD, ResilientApi.initial_breaker]
  · simp [ResilientApi.lambda_handler, ResilientApi.is_circuit_open, hst,
      not_lt.mpr hle]
  · simp [AssetApi.handle_request_post, AssetApi.is_circuit_breaker_closed, hst, hl,
      not_lt.mpr hle]

/-- Witness for C9: five failures at times 1..5 open the breaker; a
request at time 30 is rejected by both variants with the responses
described by the amended claim. -/
theorem claim_C9_witness :
    (ResilientApi.run_failures [1, 2, 3, 4, 5] ResilientApi.initial_breaker).state
      = CBStatus.OPEN ∧
    ResilientApi.lambda_handler 30 (some ⟨200, none, none, none, none⟩)
        ⟨5, 5, CBStatus.OPEN⟩
      = (ResilientApi.circuit_breaker_response, ⟨5, 5, CBStatus.OPEN⟩, false) ∧
    AssetApi.handle_request_post 30 true ⟨some "svc", some "latency", some 1, none⟩
        ⟨5, some 5, CBStatus.OPEN⟩
      = some (AssetApi.circuit_breaker_rejection ⟨5, some 5, CBStatus.OPEN⟩,
          ⟨false, false⟩, ⟨5, some 5, CBStatus.OPEN⟩) :=
  ⟨claim_C9.1 1 2 3 4 5,
    claim_C9.2.1 30 (some ⟨200, none, none, none, none⟩) ⟨5, 5, CBStatus.OPEN⟩ rfl
      (by norm_num [ResilientApi.TIMEOUT_DURATION]),
    claim_C9.2.2.2.1 30 true ⟨some "svc", some "latency", some 1, none⟩
      ⟨5, some 5, CBStatus.OPEN⟩ 5 rfl rfl (by norm_num [AssetApi.timeout])⟩

end Monitoring
